import Mathlib

/-!
Shallow embedding of the fencing-estimator core: `app/estimator.py` and the
lookup function of `app/pricebook_loader.py`.

Modelling conventions:
* Python `float` values are modelled as exact rationals (`ℚ`); `round(x, 2)`
  is modelled as rounding `100 * x` to the nearest integer.  Every claim
  proved here compares two expressions built from the same rounding
  function, so the tie-breaking convention is irrelevant to the statements.
* The Python `Dict[str, PricebookItem]` (insertion ordered, unique keys) is
  modelled as a list of items in insertion order; `get_item` returns the
  first item carrying the requested SKU, and `pick_by_category` scans the
  same order, exactly as iteration over `dict.values()` does.
* `raise ValueError(...)` / `raise KeyError(...)` become an `Except` result
  carrying the error kind and the formatted message; a raised exception
  aborts the call, so an `Except.error` result carries no partial output.
-/

/-- Error outcomes of the estimator core: Python `ValueError` (validation)
and `KeyError` (lookup), each with its message. -/
inductive EstError where
  | valueError (msg : String)
  | keyError (msg : String)
deriving Repr, DecidableEq

/-- `PricebookItem` from `app/pricebook_loader.py`. -/
structure PricebookItem where
  sku : String
  description : String
  unit : String
  unit_price : ℚ
  unit_cost : Option ℚ := none
  category : Option String := none
deriving Repr, DecidableEq

/-- `Pricebook = Dict[str, PricebookItem]`, as an insertion-ordered list. -/
abbrev Pricebook := List PricebookItem

/-- `get_item` from `app/pricebook_loader.py`: look up an item by SKU,
raising a clear `KeyError` if missing. -/
def get_item (pricebook : Pricebook) (sku : String) : Except EstError PricebookItem :=
  match pricebook.find? (fun item => item.sku == sku) with
  | some item => Except.ok item
  | none => Except.error (EstError.keyError ("SKU not found in pricebook: " ++ sku))

/-- `LineItemInput` from `app/estimator.py`. -/
structure LineItemInput where
  sku : String
  quantity : ℚ
deriving Repr, DecidableEq

/-- `LineItemEstimate` from `app/estimator.py`. -/
structure LineItemEstimate where
  sku : String
  description : String
  quantity : ℚ
  unit : String
  unit_price : ℚ
  extended_price : ℚ
deriving Repr, DecidableEq

/-- `EstimateBreakdown` from `app/estimator.py`. -/
structure EstimateBreakdown where
  materials_subtotal : ℚ
  labor_hours : ℚ
  labor_rate : ℚ
  labor_total : ℚ
  subtotal : ℚ
  margin_pct : ℚ
  margin_amount : ℚ
  total : ℚ
  line_items : List LineItemEstimate
deriving Repr, DecidableEq

/-- `_round_money` from `app/estimator.py`: `round(value, 2)`. -/
def _round_money (value : ℚ) : ℚ := (round (value * 100) : ℚ) / 100

/-- The `LineItemEstimate(...)` construction inside the loop of
`calculate_estimate` (`app/estimator.py` lines 148-157). -/
def priced_line (pb_item : PricebookItem) (item : LineItemInput) : LineItemEstimate :=
  { sku := pb_item.sku
    description := pb_item.description
    quantity := item.quantity
    unit := pb_item.unit
    unit_price := pb_item.unit_price
    extended_price := _round_money (item.quantity * pb_item.unit_price) }

/-- The `for item in line_items` loop of `calculate_estimate`
(`app/estimator.py` lines 140-157), with the two accumulators
`estimated_lines` and `materials_subtotal` made explicit. -/
def calc_lines (pricebook : Pricebook) (items : List LineItemInput)
    (estimated_lines : List LineItemEstimate) (materials_subtotal : ℚ) :
    Except EstError (List LineItemEstimate × ℚ) :=
  match items with
  | [] => Except.ok (estimated_lines, materials_subtotal)
  | item :: rest =>
    if item.quantity ≤ 0 then
      Except.error (EstError.valueError ("Quantity must be positive for SKU " ++ item.sku))
    else
      match get_item pricebook item.sku with
      | Except.error e => Except.error e
      | Except.ok pb_item =>
        calc_lines pricebook rest
          (estimated_lines ++ [priced_line pb_item item])
          (materials_subtotal + item.quantity * pb_item.unit_price)

/-- `calculate_estimate` from `app/estimator.py`. -/
def calculate_estimate (pricebook : Pricebook) (line_items : List LineItemInput)
    (labor_hours : ℚ := 0) (labor_rate : ℚ := 0) (margin_pct : ℚ := 0) :
    Except EstError EstimateBreakdown :=
  if labor_hours < 0 ∨ labor_rate < 0 ∨ margin_pct < 0 then
    Except.error (EstError.valueError
      "labor_hours, labor_rate, and margin_pct must be non-negative")
  else
    match calc_lines pricebook line_items [] 0 with
    | Except.error e => Except.error e
    | Except.ok (estimated_lines, materials_subtotal) =>
      let labor_total := labor_hours * labor_rate
      let subtotal := materials_subtotal + labor_total
      let margin_amount := subtotal * (margin_pct / 100)
      let total := subtotal + margin_amount
      Except.ok
        { materials_subtotal := _round_money materials_subtotal
          labor_hours := _round_money labor_hours
          labor_rate := _round_money labor_rate
          labor_total := _round_money labor_total
          subtotal := _round_money subtotal
          margin_pct := _round_money margin_pct
          margin_amount := _round_money margin_amount
          total := _round_money total
          line_items := estimated_lines }

/-- `FenceEstimateInput` from `app/estimator.py`. -/
structure FenceEstimateInput where
  fence_length_ft : ℚ
  style : String := "wood"
  posts_per_ft : ℚ := 0.0833
  gates : ℤ := 0
deriving Repr, DecidableEq

/-- `pick_by_category` from `build_fence_bom`: first pricebook item, in
iteration order, whose category equals the requested one. -/
def pick_by_category (pricebook : Pricebook) (category : String) :
    Except EstError PricebookItem :=
  match pricebook.find? (fun item => item.category == some category) with
  | some item => Except.ok item
  | none => Except.error (EstError.keyError
      ("No pricebook item with category=\x27" ++ category ++ "\x27"))

/-- `posts_qty = max(2, ceil(fence_length_ft * posts_per_ft))`. -/
def posts_qty (fence : FenceEstimateInput) : ℤ :=
  max 2 ⌈fence.fence_length_ft * fence.posts_per_ft⌉

/-- `rails_qty = max(0, (posts_qty - 1) * rails_per_section)` with
`rails_per_section = 2`. -/
def rails_qty (fence : FenceEstimateInput) : ℤ :=
  max 0 ((posts_qty fence - 1) * 2)

/-- `pickets_per_ft = 2.0 if fence.style == "wood" else 2.0`. -/
def pickets_per_ft (fence : FenceEstimateInput) : ℚ :=
  if fence.style == "wood" then 2.0 else 2.0

/-- `pickets_qty = ceil(fence_length_ft * pickets_per_ft)`. -/
def pickets_qty (fence : FenceEstimateInput) : ℤ :=
  ⌈fence.fence_length_ft * pickets_per_ft fence⌉

/-- `concrete_qty = ceil(posts_qty * bags_per_post)` with `bags_per_post = 0.75`. -/
def concrete_qty (fence : FenceEstimateInput) : ℤ :=
  ⌈(posts_qty fence : ℚ) * 0.75⌉

/-- `fasteners_boxes = max(1, ceil(pickets_qty / 200))`. -/
def fasteners_boxes (fence : FenceEstimateInput) : ℤ :=
  max 1 ⌈(pickets_qty fence : ℚ) / 200⌉

/-- `gate_qty = max(0, fence.gates)`. -/
def gate_qty (fence : FenceEstimateInput) : ℤ :=
  max 0 fence.gates

/-- The five-element bill of materials built from the five required picks
(`app/estimator.py` lines 72-78). -/
def required_bom (post_item rail_item picket_item concrete_item fastener_item :
    PricebookItem) (fence : FenceEstimateInput) : List LineItemInput :=
  [{ sku := post_item.sku, quantity := (posts_qty fence : ℚ) },
   { sku := rail_item.sku, quantity := (rails_qty fence : ℚ) },
   { sku := picket_item.sku, quantity := (pickets_qty fence : ℚ) },
   { sku := concrete_item.sku, quantity := (concrete_qty fence : ℚ) },
   { sku := fastener_item.sku, quantity := (fasteners_boxes fence : ℚ) }]

/-- `build_fence_bom` from `app/estimator.py`. -/
def build_fence_bom (pricebook : Pricebook) (fence : FenceEstimateInput) :
    Except EstError (List LineItemInput) :=
  match pick_by_category pricebook "post" with
  | Except.error e => Except.error e
  | Except.ok post_item =>
  match pick_by_category pricebook "rail" with
  | Except.error e => Except.error e
  | Except.ok rail_item =>
  match pick_by_category pricebook "picket" with
  | Except.error e => Except.error e
  | Except.ok picket_item =>
  match pick_by_category pricebook "concrete" with
  | Except.error e => Except.error e
  | Except.ok concrete_item =>
  match pick_by_category pricebook "fastener" with
  | Except.error e => Except.error e
  | Except.ok fastener_item =>
    let gate_item : Option PricebookItem :=
      if 0 < gate_qty fence then
        match pick_by_category pricebook "gate" with
        | Except.ok item => some item
        | Except.error _ => none
      else none
    let bom : List LineItemInput :=
      required_bom post_item rail_item picket_item concrete_item fastener_item fence
    match gate_item with
    | some g =>
      if 0 < gate_qty fence then
        Except.ok (bom ++ [{ sku := g.sku, quantity := (gate_qty fence : ℚ) }])
      else Except.ok bom
    | none => Except.ok bom

/-- Specification-side formula (spec §8): the unrounded product
`quantity * unit_price` of one line, `0` when the SKU is missing.  Written
from the spec sentence, to be compared with what `calculate_estimate`
computes. -/
def spec_line_product (pricebook : Pricebook) (li : LineItemInput) : ℚ :=
  match get_item pricebook li.sku with
  | Except.ok item => li.quantity * item.unit_price
  | Except.error _ => 0

/-- Specification-side formula (spec §8): the sum of the unrounded per-line
products over the whole request. -/
def spec_materials_subtotal (pricebook : Pricebook) (items : List LineItemInput) : ℚ :=
  (items.map (spec_line_product pricebook)).sum

/-! Basic inversion and step lemmas about the embedded operations. -/

theorem get_item_error_shape (pricebook : Pricebook) (sku : String) (e : EstError)
    (h : get_item pricebook sku = Except.error e) :
    e = EstError.keyError ("SKU not found in pricebook: " ++ sku) := by
  unfold get_item at h
  cases hf : pricebook.find? (fun item => item.sku == sku) <;> rw [hf] at h
  · exact (Except.error.injEq _ _).mp h.symm
  · cases h

theorem get_item_isOk_iff (pricebook : Pricebook) (sku : String) :
    (get_item pricebook sku).isOk ↔ ∃ item, get_item pricebook sku = Except.ok item := by
  cases h : get_item pricebook sku <;>
    simp [Except.isOk, Except.toBool]

theorem get_item_isOk_iff_find? (pricebook : Pricebook) (sku : String) :
    (get_item pricebook sku).isOk ↔
      (pricebook.find? (fun item => item.sku == sku)).isSome := by
  unfold get_item
  cases pricebook.find? (fun item => item.sku == sku) <;>
    simp [Except.isOk, Except.toBool]

theorem pick_by_category_error_shape (pricebook : Pricebook) (category : String)
    (e : EstError) (h : pick_by_category pricebook category = Except.error e) :
    e = EstError.keyError
      ("No pricebook item with category=\x27" ++ category ++ "\x27") := by
  unfold pick_by_category at h
  cases hf : pricebook.find? (fun item => item.category == some category) <;> rw [hf] at h
  · exact (Except.error.injEq _ _).mp h.symm
  · cases h

theorem calc_lines_nil (pricebook : Pricebook) (acc : List LineItemEstimate) (sub : ℚ) :
    calc_lines pricebook [] acc sub = Except.ok (acc, sub) := rfl

theorem calc_lines_cons_nonpos (pricebook : Pricebook) (li : LineItemInput)
    (rest : List LineItemInput) (acc : List LineItemEstimate) (sub : ℚ)
    (h : li.quantity ≤ 0) :
    calc_lines pricebook (li :: rest) acc sub =
      Except.error (EstError.valueError
        ("Quantity must be positive for SKU " ++ li.sku)) := by
  simp [calc_lines, h]

theorem calc_lines_cons_missing (pricebook : Pricebook) (li : LineItemInput)
    (rest : List LineItemInput) (acc : List LineItemEstimate) (sub : ℚ) (e : EstError)
    (hq : 0 < li.quantity) (h : get_item pricebook li.sku = Except.error e) :
    calc_lines pricebook (li :: rest) acc sub = Except.error e := by
  simp [calc_lines, not_le.mpr hq, h]

theorem calc_lines_cons_found (pricebook : Pricebook) (li : LineItemInput)
    (rest : List LineItemInput) (acc : List LineItemEstimate) (sub : ℚ)
    (pb_item : PricebookItem)
    (hq : 0 < li.quantity) (h : get_item pricebook li.sku = Except.ok pb_item) :
    calc_lines pricebook (li :: rest) acc sub =
      calc_lines pricebook rest (acc ++ [priced_line pb_item li])
        (sub + li.quantity * pb_item.unit_price) := by
  simp [calc_lines, not_le.mpr hq, h]

theorem calculate_estimate_neg_params (pricebook : Pricebook)
    (line_items : List LineItemInput) (labor_hours labor_rate margin_pct : ℚ)
    (h : labor_hours < 0 ∨ labor_rate < 0 ∨ margin_pct < 0) :
    calculate_estimate pricebook line_items labor_hours labor_rate margin_pct =
      Except.error (EstError.valueError
        "labor_hours, labor_rate, and margin_pct must be non-negative") := by
  simp [calculate_estimate, h]

theorem calculate_estimate_lines_error (pricebook : Pricebook)
    (line_items : List LineItemInput) (labor_hours labor_rate margin_pct : ℚ)
    (e : EstError)
    (hlh : 0 ≤ labor_hours) (hlr : 0 ≤ labor_rate) (hm : 0 ≤ margin_pct)
    (h : calc_lines pricebook line_items [] 0 = Except.error e) :
    calculate_estimate pricebook line_items labor_hours labor_rate margin_pct =
      Except.error e := by
  have hcond : ¬ (labor_hours < 0 ∨ labor_rate < 0 ∨ margin_pct < 0) := by
    push_neg
    exact ⟨hlh, hlr, hm⟩
  simp [calculate_estimate, hcond, h]

theorem calculate_estimate_lines_ok (pricebook : Pricebook)
    (line_items : List LineItemInput) (labor_hours labor_rate margin_pct : ℚ)
    (estimated_lines : List LineItemEstimate) (materials_subtotal : ℚ)
    (hlh : 0 ≤ labor_hours) (hlr : 0 ≤ labor_rate) (hm : 0 ≤ margin_pct)
    (h : calc_lines pricebook line_items [] 0 =
      Except.ok (estimated_lines, materials_subtotal)) :
    calculate_estimate pricebook line_items labor_hours labor_rate margin_pct =
      Except.ok
        { materials_subtotal := _round_money materials_subtotal
          labor_hours := _round_money labor_hours
          labor_rate := _round_money labor_rate
          labor_total := _round_money (labor_hours * labor_rate)
          subtotal := _round_money (materials_subtotal + labor_hours * labor_rate)
          margin_pct := _round_money margin_pct
          margin_amount := _round_money
            ((materials_subtotal + labor_hours * labor_rate) * (margin_pct / 100))
          total := _round_money
            (materials_subtotal + labor_hours * labor_rate +
              (materials_subtotal + labor_hours * labor_rate) * (margin_pct / 100))
          line_items := estimated_lines } := by
  have hcond : ¬ (labor_hours < 0 ∨ labor_rate < 0 ∨ margin_pct < 0) := by
    push_neg
    exact ⟨hlh, hlr, hm⟩
  simp [calculate_estimate, hcond, h]

theorem build_fence_bom_post_error (pricebook : Pricebook) (fence : FenceEstimateInput)
    (e : EstError) (h : pick_by_category pricebook "post" = Except.error e) :
    build_fence_bom pricebook fence = Except.error e := by
  simp [build_fence_bom, h]

theorem build_fence_bom_rail_error (pricebook : Pricebook) (fence : FenceEstimateInput)
    (p : PricebookItem) (e : EstError)
    (hp : pick_by_category pricebook "post" = Except.ok p)
    (h : pick_by_category pricebook "rail" = Except.error e) :
    build_fence_bom pricebook fence = Except.error e := by
  simp [build_fence_bom, hp, h]

theorem build_fence_bom_picket_error (pricebook : Pricebook) (fence : FenceEstimateInput)
    (p r : PricebookItem) (e : EstError)
    (hp : pick_by_category pricebook "post" = Except.ok p)
    (hr : pick_by_category pricebook "rail" = Except.ok r)
    (h : pick_by_category pricebook "picket" = Except.error e) :
    build_fence_bom pricebook fence = Except.error e := by
  simp [build_fence_bom, hp, hr, h]

theorem build_fence_bom_concrete_error (pricebook : Pricebook) (fence : FenceEstimateInput)
    (p r k : PricebookItem) (e : EstError)
    (hp : pick_by_category pricebook "post" = Except.ok p)
    (hr : pick_by_category pricebook "rail" = Except.ok r)
    (hk : pick_by_category pricebook "picket" = Except.ok k)
    (h : pick_by_category pricebook "concrete" = Except.error e) :
    build_fence_bom pricebook fence = Except.error e := by
  simp [build_fence_bom, hp, hr, hk, h]

theorem build_fence_bom_fastener_error (pricebook : Pricebook) (fence : FenceEstimateInput)
    (p r k c : PricebookItem) (e : EstError)
    (hp : pick_by_category pricebook "post" = Except.ok p)
    (hr : pick_by_category pricebook "rail" = Except.ok r)
    (hk : pick_by_category pricebook "picket" = Except.ok k)
    (hc : pick_by_category pricebook "concrete" = Except.ok c)
    (h : pick_by_category pricebook "fastener" = Except.error e) :
    build_fence_bom pricebook fence = Except.error e := by
  simp [build_fence_bom, hp, hr, hk, hc, h]

theorem build_fence_bom_ok_no_gate (pricebook : Pricebook) (fence : FenceEstimateInput)
    (p r k c f : PricebookItem)
    (hp : pick_by_category pricebook "post" = Except.ok p)
    (hr : pick_by_category pricebook "rail" = Except.ok r)
    (hk : pick_by_category pricebook "picket" = Except.ok k)
    (hc : pick_by_category pricebook "concrete" = Except.ok c)
    (hf : pick_by_category pricebook "fastener" = Except.ok f)
    (hg : ¬ 0 < gate_qty fence) :
    build_fence_bom pricebook fence = Except.ok (required_bom p r k c f fence) := by
  simp [build_fence_bom, hp, hr, hk, hc, hf, hg]

theorem build_fence_bom_ok_gate_missing (pricebook : Pricebook)
    (fence : FenceEstimateInput) (p r k c f : PricebookItem) (e : EstError)
    (hp : pick_by_category pricebook "post" = Except.ok p)
    (hr : pick_by_category pricebook "rail" = Except.ok r)
    (hk : pick_by_category pricebook "picket" = Except.ok k)
    (hc : pick_by_category pricebook "concrete" = Except.ok c)
    (hf : pick_by_category pricebook "fastener" = Except.ok f)
    (hg : 0 < gate_qty fence)
    (hge : pick_by_category pricebook "gate" = Except.error e) :
    build_fence_bom pricebook fence = Except.ok (required_bom p r k c f fence) := by
  simp [build_fence_bom, hp, hr, hk, hc, hf, hg, hge]

theorem build_fence_bom_ok_gate (pricebook : Pricebook)
    (fence : FenceEstimateInput) (p r k c f g : PricebookItem)
    (hp : pick_by_category pricebook "post" = Except.ok p)
    (hr : pick_by_category pricebook "rail" = Except.ok r)
    (hk : pick_by_category pricebook "picket" = Except.ok k)
    (hc : pick_by_category pricebook "concrete" = Except.ok c)
    (hf : pick_by_category pricebook "fastener" = Except.ok f)
    (hg : 0 < gate_qty fence)
    (hgi : pick_by_category pricebook "gate" = Except.ok g) :
    build_fence_bom pricebook fence =
      Except.ok (required_bom p r k c f fence ++
        [{ sku := g.sku, quantity := (gate_qty fence : ℚ) }]) := by
  simp [build_fence_bom, hp, hr, hk, hc, hf, hg, hgi]

theorem calc_lines_ok_of_valid (pricebook : Pricebook) :
    ∀ (items : List LineItemInput) (acc : List LineItemEstimate) (sub : ℚ),
      (∀ li ∈ items, 0 < li.quantity) →
      (∀ li ∈ items, (get_item pricebook li.sku).isOk) →
      ∃ lines, calc_lines pricebook items acc sub =
          Except.ok (acc ++ lines, sub + spec_materials_subtotal pricebook items) ∧
        ∀ l ∈ lines, l.extended_price = _round_money (l.quantity * l.unit_price)
  | [], acc, sub, _, _ => by
    refine ⟨[], ?_, by simp⟩
    simp [calc_lines_nil, spec_materials_subtotal]
  | li :: rest, acc, sub, hq, hsku => by
    have hqli : 0 < li.quantity := hq li (List.mem_cons_self li rest)
    have hok : (get_item pricebook li.sku).isOk :=
      hsku li (List.mem_cons_self li rest)
    obtain ⟨pb_item, hitem⟩ := (get_item_isOk_iff pricebook li.sku).mp hok
    obtain ⟨lines, hrec, hround⟩ :=
      calc_lines_ok_of_valid pricebook rest (acc ++ [priced_line pb_item li])
        (sub + li.quantity * pb_item.unit_price)
        (fun x hx => hq x (List.mem_cons_of_mem li hx))
        (fun x hx => hsku x (List.mem_cons_of_mem li hx))
    refine ⟨priced_line pb_item li :: lines, ?_, ?_⟩
    · rw [calc_lines_cons_found pricebook li rest acc sub pb_item hqli hitem, hrec]
      have hsubs : spec_materials_subtotal pricebook (li :: rest) =
          li.quantity * pb_item.unit_price + spec_materials_subtotal pricebook rest := by
        simp [spec_materials_subtotal, spec_line_product, hitem]
      rw [hsubs]
      simp [add_assoc]
    · intro l hl
      rcases List.mem_cons.mp hl with hl | hl
      · subst hl
        rfl
      · exact hround l hl

theorem calc_lines_value_error_shape (pricebook : Pricebook) :
    ∀ (items : List LineItemInput) (acc : List LineItemEstimate) (sub : ℚ)
      (msg : String),
      calc_lines pricebook items acc sub = Except.error (EstError.valueError msg) →
      ∃ li ∈ items, li.quantity ≤ 0
  | [], acc, sub, msg => by
    intro h
    cases h
  | li :: rest, acc, sub, msg => by
    intro h
    by_cases hq : li.quantity ≤ 0
    · exact ⟨li, List.mem_cons_self li rest, hq⟩
    · have hqli : 0 < li.quantity := not_le.mp hq
      cases hitem : get_item pricebook li.sku with
      | error e =>
        rw [calc_lines_cons_missing pricebook li rest acc sub e hqli hitem] at h
        have := get_item_error_shape pricebook li.sku e hitem
        subst this
        cases h
      | ok pb_item =>
        rw [calc_lines_cons_found pricebook li rest acc sub pb_item hqli hitem] at h
        obtain ⟨x, hx, hxq⟩ :=
          calc_lines_value_error_shape pricebook rest _ _ msg h
        exact ⟨x, List.mem_cons_of_mem li hx, hxq⟩

theorem calc_lines_error_of_nonpos (pricebook : Pricebook) :
    ∀ (items : List LineItemInput) (acc : List LineItemEstimate) (sub : ℚ),
      (∀ li ∈ items, (get_item pricebook li.sku).isOk) →
      (∃ li ∈ items, li.quantity ≤ 0) →
      ∃ msg, calc_lines pricebook items acc sub =
        Except.error (EstError.valueError msg)
  | [], acc, sub => by
    rintro _ ⟨li, hli, _⟩
    cases hli
  | li :: rest, acc, sub => by
    rintro hsku ⟨x, hx, hxq⟩
    by_cases hq : li.quantity ≤ 0
    · exact ⟨"Quantity must be positive for SKU " ++ li.sku,
        calc_lines_cons_nonpos pricebook li rest acc sub hq⟩
    · have hqli : 0 < li.quantity := not_le.mp hq
      obtain ⟨pb_item, hitem⟩ := (get_item_isOk_iff pricebook li.sku).mp
        (hsku li (List.mem_cons_self li rest))
      rw [calc_lines_cons_found pricebook li rest acc sub pb_item hqli hitem]
      have hxrest : x ∈ rest := by
        rcases List.mem_cons.mp hx with hx | hx
        · subst hx
          exact absurd hxq hq
        · exact hx
      exact calc_lines_error_of_nonpos pricebook rest _ _
        (fun y hy => hsku y (List.mem_cons_of_mem li hy)) ⟨x, hxrest, hxq⟩

theorem calc_lines_first_nonpos (pricebook : Pricebook) :
    ∀ (pre : List LineItemInput) (li : LineItemInput) (post : List LineItemInput)
      (acc : List LineItemEstimate) (sub : ℚ),
      (∀ x ∈ pre, 0 < x.quantity) →
      (∀ x ∈ pre, (get_item pricebook x.sku).isOk) →
      li.quantity ≤ 0 →
      calc_lines pricebook (pre ++ li :: post) acc sub =
        Except.error (EstError.valueError
          ("Quantity must be positive for SKU " ++ li.sku))
  | [], li, post, acc, sub => by
    intro _ _ hq
    exact calc_lines_cons_nonpos pricebook li post acc sub hq
  | x :: pre, li, post, acc, sub => by
    intro hq hsku hli
    have hqx : 0 < x.quantity := hq x (List.mem_cons_self x pre)
    obtain ⟨pb_item, hitem⟩ := (get_item_isOk_iff pricebook x.sku).mp
      (hsku x (List.mem_cons_self x pre))
    rw [List.cons_append,
      calc_lines_cons_found pricebook x (pre ++ li :: post) acc sub pb_item hqx hitem]
    exact calc_lines_first_nonpos pricebook pre li post _ _
      (fun y hy => hq y (List.mem_cons_of_mem x hy))
      (fun y hy => hsku y (List.mem_cons_of_mem x hy)) hli

theorem calc_lines_first_missing (pricebook : Pricebook) :
    ∀ (pre : List LineItemInput) (li : LineItemInput) (post : List LineItemInput)
      (acc : List LineItemEstimate) (sub : ℚ),
      (∀ x ∈ pre, 0 < x.quantity) →
      0 < li.quantity →
      (∀ x ∈ pre, (get_item pricebook x.sku).isOk) →
      ¬ (get_item pricebook li.sku).isOk →
      calc_lines pricebook (pre ++ li :: post) acc sub =
        Except.error (EstError.keyError
          ("SKU not found in pricebook: " ++ li.sku))
  | [], li, post, acc, sub => by
    intro _ hqli _ hmiss
    cases hitem : get_item pricebook li.sku with
    | error e =>
      rw [List.nil_append,
        calc_lines_cons_missing pricebook li post acc sub e hqli hitem,
        get_item_error_shape pricebook li.sku e hitem]
    | ok pb_item =>
      exact absurd (by simp [hitem, Except.isOk, Except.toBool]) hmiss
  | x :: pre, li, post, acc, sub => by
    intro hq hqli hsku hmiss
    have hqx : 0 < x.quantity := hq x (List.mem_cons_self x pre)
    obtain ⟨pb_item, hitem⟩ := (get_item_isOk_iff pricebook x.sku).mp
      (hsku x (List.mem_cons_self x pre))
    rw [List.cons_append,
      calc_lines_cons_found pricebook x (pre ++ li :: post) acc sub pb_item hqx hitem]
    exact calc_lines_first_missing pricebook pre li post _ _
      (fun y hy => hq y (List.mem_cons_of_mem x hy)) hqli
      (fun y hy => hsku y (List.mem_cons_of_mem x hy)) hmiss

theorem calc_lines_ok_or_key_error (pricebook : Pricebook) :
    ∀ (items : List LineItemInput) (acc : List LineItemEstimate) (sub : ℚ),
      (∀ li ∈ items, 0 < li.quantity) →
      (calc_lines pricebook items acc sub).isOk ∨
        ∃ msg, calc_lines pricebook items acc sub =
          Except.error (EstError.keyError msg)
  | [], acc, sub => by
    intro _
    left
    simp [calc_lines_nil, Except.isOk, Except.toBool]
  | li :: rest, acc, sub => by
    intro hq
    have hqli : 0 < li.quantity := hq li (List.mem_cons_self li rest)
    cases hitem : get_item pricebook li.sku with
    | error e =>
      right
      rw [calc_lines_cons_missing pricebook li rest acc sub e hqli hitem,
        get_item_error_shape pricebook li.sku e hitem]
      exact ⟨_, rfl⟩
    | ok pb_item =>
      rw [calc_lines_cons_found pricebook li rest acc sub pb_item hqli hitem]
      exact calc_lines_ok_or_key_error pricebook rest _ _
        (fun y hy => hq y (List.mem_cons_of_mem li hy))

theorem calc_lines_congr (pb1 pb2 : Pricebook) :
    ∀ (items : List LineItemInput) (acc : List LineItemEstimate) (sub : ℚ),
      (∀ li ∈ items, get_item pb1 li.sku = get_item pb2 li.sku) →
      calc_lines pb1 items acc sub = calc_lines pb2 items acc sub
  | [], acc, sub => by
    intro _
    rfl
  | li :: rest, acc, sub => by
    intro h
    by_cases hq : li.quantity ≤ 0
    · rw [calc_lines_cons_nonpos pb1 li rest acc sub hq,
        calc_lines_cons_nonpos pb2 li rest acc sub hq]
    · have hqli : 0 < li.quantity := not_le.mp hq
      have hli : get_item pb1 li.sku = get_item pb2 li.sku :=
        h li (List.mem_cons_self li rest)
      cases hitem : get_item pb2 li.sku with
      | error e =>
        rw [calc_lines_cons_missing pb1 li rest acc sub e hqli (hli.trans hitem),
          calc_lines_cons_missing pb2 li rest acc sub e hqli hitem]
      | ok pb_item =>
        rw [calc_lines_cons_found pb1 li rest acc sub pb_item hqli (hli.trans hitem),
          calc_lines_cons_found pb2 li rest acc sub pb_item hqli hitem]
        exact calc_lines_congr pb1 pb2 rest _ _
          (fun y hy => h y (List.mem_cons_of_mem li hy))

theorem round_money_zero : _round_money 0 = 0 := by
  simp [_round_money]

/-- Concrete catalog items and line items used by the witnesses below. -/
def demo_item_a : PricebookItem :=
  { sku := "A", description := "Item A", unit := "ea", unit_price := 10 }

def demo_item_extra : PricebookItem :=
  { sku := "Z", description := "Unreferenced item", unit := "ea", unit_price := 999 }

def demo_pricebook : Pricebook := [demo_item_a]

def demo_items : List LineItemInput := [{ sku := "A", quantity := 3 }]

/-- Claim C1: for every catalog and line-item list whose SKUs all exist and
whose quantities are all positive, with non-negative labor hours, labor rate
and margin percent, `calculate_estimate` returns a breakdown in which every
priced line has `extended_price = round(quantity * unit_price, 2)`, the
materials subtotal is the rounding of the sum of the unrounded per-line
products, and the total is the rounding of unrounded materials plus
unrounded labor plus the unrounded margin amount, the margin being applied
to materials plus labor. -/
theorem calculate_estimate_rounding_contract (pricebook : Pricebook)
    (line_items : List LineItemInput) (labor_hours labor_rate margin_pct : ℚ)
    (hq : ∀ li ∈ line_items, 0 < li.quantity)
    (hsku : ∀ li ∈ line_items, (get_item pricebook li.sku).isOk)
    (hlh : 0 ≤ labor_hours) (hlr : 0 ≤ labor_rate) (hm : 0 ≤ margin_pct) :
    ∃ breakdown,
      calculate_estimate pricebook line_items labor_hours labor_rate margin_pct =
        Except.ok breakdown ∧
      (∀ l ∈ breakdown.line_items,
        l.extended_price = _round_money (l.quantity * l.unit_price)) ∧
      breakdown.materials_subtotal =
        _round_money (spec_materials_subtotal pricebook line_items) ∧
      breakdown.total =
        _round_money (spec_materials_subtotal pricebook line_items +
          labor_hours * labor_rate +
          (spec_materials_subtotal pricebook line_items + labor_hours * labor_rate) *
            (margin_pct / 100)) := by
  obtain ⟨lines, hcalc, hround⟩ :=
    calc_lines_ok_of_valid pricebook line_items [] 0 hq hsku
  rw [List.nil_append, zero_add] at hcalc
  exact ⟨_, calculate_estimate_lines_ok pricebook line_items labor_hours labor_rate
    margin_pct lines (spec_materials_subtotal pricebook line_items) hlh hlr hm hcalc,
    hround, rfl, rfl⟩

theorem calculate_estimate_rounding_contract_witness :
    ∃ breakdown,
      calculate_estimate demo_pricebook demo_items 2 50 10 = Except.ok breakdown ∧
      (∀ l ∈ breakdown.line_items,
        l.extended_price = _round_money (l.quantity * l.unit_price)) ∧
      breakdown.materials_subtotal =
        _round_money (spec_materials_subtotal demo_pricebook demo_items) ∧
      breakdown.total =
        _round_money (spec_materials_subtotal demo_pricebook demo_items + 2 * 50 +
          (spec_materials_subtotal demo_pricebook demo_items + 2 * 50) * (10 / 100)) :=
  calculate_estimate_rounding_contract demo_pricebook demo_items 2 50 10
    (by norm_num [demo_items])
    (by norm_num [demo_items, get_item, demo_pricebook, demo_item_a,
      Except.isOk, Except.toBool])
    (by norm_num) (by norm_num) (by norm_num)

/-- Claim C9: `calculate_estimate` does not special-case an empty line-item
list: with zero line items and non-negative parameters it returns a
breakdown with an empty priced-line sequence and zero materials subtotal,
and with all-zero labor and margin parameters every monetary field of the
breakdown is zero. -/
theorem empty_line_items_zero_breakdown (pricebook : Pricebook)
    (labor_hours labor_rate margin_pct : ℚ)
    (hlh : 0 ≤ labor_hours) (hlr : 0 ≤ labor_rate) (hm : 0 ≤ margin_pct) :
    (∃ b, calculate_estimate pricebook [] labor_hours labor_rate margin_pct =
        Except.ok b ∧ b.line_items = [] ∧ b.materials_subtotal = 0) ∧
    (∃ b, calculate_estimate pricebook [] 0 0 0 = Except.ok b ∧
      b.line_items = [] ∧ b.materials_subtotal = 0 ∧ b.labor_total = 0 ∧
      b.subtotal = 0 ∧ b.margin_amount = 0 ∧ b.total = 0) := by
  constructor
  · exact ⟨_, calculate_estimate_lines_ok pricebook [] labor_hours labor_rate
      margin_pct [] 0 hlh hlr hm (calc_lines_nil pricebook [] 0),
      rfl, round_money_zero⟩
  · refine ⟨_, calculate_estimate_lines_ok pricebook [] 0 0 0 [] 0 le_rfl le_rfl
      le_rfl (calc_lines_nil pricebook [] 0), rfl, ?_, ?_, ?_, ?_, ?_⟩ <;>
      norm_num [round_money_zero]

theorem empty_line_items_zero_breakdown_witness :
    (∃ b, calculate_estimate demo_pricebook [] 1 2 3 = Except.ok b ∧
        b.line_items = [] ∧ b.materials_subtotal = 0) ∧
    (∃ b, calculate_estimate demo_pricebook [] 0 0 0 = Except.ok b ∧
      b.line_items = [] ∧ b.materials_subtotal = 0 ∧ b.labor_total = 0 ∧
      b.subtotal = 0 ∧ b.margin_amount = 0 ∧ b.total = 0) :=
  empty_line_items_zero_breakdown demo_pricebook 1 2 3
    (by norm_num) (by norm_num) (by norm_num)

/-- Claim C10: catalog entries whose SKUs are not referenced by the line
items have no influence: two catalogs that agree on the lookup of every SKU
appearing in the line-item list produce identical outcomes, breakdown or
error. -/
theorem catalog_noninterference (pb1 pb2 : Pricebook)
    (line_items : List LineItemInput) (labor_hours labor_rate margin_pct : ℚ)
    (h : ∀ li ∈ line_items, get_item pb1 li.sku = get_item pb2 li.sku) :
    calculate_estimate pb1 line_items labor_hours labor_rate margin_pct =
      calculate_estimate pb2 line_items labor_hours labor_rate margin_pct := by
  unfold calculate_estimate
  rw [calc_lines_congr pb1 pb2 line_items [] 0 h]

theorem catalog_noninterference_witness :
    calculate_estimate (demo_pricebook ++ [demo_item_extra]) demo_items 2 50 10 =
      calculate_estimate demo_pricebook demo_items 2 50 10 :=
  catalog_noninterference (demo_pricebook ++ [demo_item_extra]) demo_pricebook
    demo_items 2 50 10
    (by norm_num [demo_items, get_item, demo_pricebook, demo_item_a, demo_item_extra])

theorem calculate_estimate_error_inv (pricebook : Pricebook)
    (line_items : List LineItemInput) (labor_hours labor_rate margin_pct : ℚ)
    (e : EstError)
    (hlh : 0 ≤ labor_hours) (hlr : 0 ≤ labor_rate) (hm : 0 ≤ margin_pct)
    (h : calculate_estimate pricebook line_items labor_hours labor_rate margin_pct =
      Except.error e) :
    calc_lines pricebook line_items [] 0 = Except.error e := by
  have hcond : ¬ (labor_hours < 0 ∨ labor_rate < 0 ∨ margin_pct < 0) := by
    push_neg
    exact ⟨hlh, hlr, hm⟩
  unfold calculate_estimate at h
  rw [if_neg hcond] at h
  cases hcl : calc_lines pricebook line_items [] 0 with
  | error e2 =>
    simp only [hcl] at h
    rw [(Except.error.injEq _ _).mp h]
  | ok p =>
    obtain ⟨lines, sub⟩ := p
    simp [hcl] at h

/-- Claim C3: when all quantities are positive and the labor and margin
parameters are non-negative, a line-item list containing a SKU absent from
the catalog makes `calculate_estimate` fail with a lookup error naming the
first missing SKU in input order, with no partial breakdown returned. -/
theorem missing_sku_first_lookup_error (pricebook : Pricebook)
    (labor_hours labor_rate margin_pct : ℚ)
    (pre : List LineItemInput) (li : LineItemInput) (post : List LineItemInput)
    (hlh : 0 ≤ labor_hours) (hlr : 0 ≤ labor_rate) (hm : 0 ≤ margin_pct)
    (hq : ∀ x ∈ pre ++ li :: post, 0 < x.quantity)
    (hpre : ∀ x ∈ pre, (get_item pricebook x.sku).isOk)
    (hmiss : ¬ (get_item pricebook li.sku).isOk) :
    calculate_estimate pricebook (pre ++ li :: post)
        labor_hours labor_rate margin_pct =
      Except.error (EstError.keyError
        ("SKU not found in pricebook: " ++ li.sku)) := by
  refine calculate_estimate_lines_error pricebook _ _ _ _ _ hlh hlr hm ?_
  refine calc_lines_first_missing pricebook pre li post [] 0 ?_ ?_ hpre hmiss
  · exact fun x hx => hq x (List.mem_append_left _ hx)
  · exact hq li (List.mem_append_right _ (List.mem_cons_self li post))

theorem missing_sku_first_lookup_error_witness :
    calculate_estimate demo_pricebook
        ([{ sku := "A", quantity := 3 }] ++
          { sku := "B", quantity := 2 } :: [{ sku := "A", quantity := 1 }]) 0 0 0 =
      Except.error (EstError.keyError ("SKU not found in pricebook: " ++ "B")) :=
  missing_sku_first_lookup_error demo_pricebook 0 0 0
    [{ sku := "A", quantity := 3 }] { sku := "B", quantity := 2 }
    [{ sku := "A", quantity := 1 }]
    (by norm_num) (by norm_num) (by norm_num)
    (by norm_num [demo_pricebook, demo_item_a])
    (by simp [get_item_isOk_iff_find?, demo_pricebook, demo_item_a])
    (by simp [get_item_isOk_iff_find?, demo_pricebook, demo_item_a])

/-- Line items used in the counterexample to claim C2: the first line has a
positive quantity and an unknown SKU, the second a non-positive quantity. -/
def c2_items : List LineItemInput :=
  [{ sku := "X", quantity := 1 }, { sku := "Y", quantity := 0 }]

/-- Claim C2 is refuted as stated: here some line item has quantity <= 0,
yet `calculate_estimate` raises a lookup error (for the earlier missing
SKU), not a validation error. -/
theorem validation_error_iff_counterexample :
    (∃ li ∈ c2_items, li.quantity ≤ 0) ∧
    calculate_estimate [] c2_items 0 0 0 =
      Except.error (EstError.keyError ("SKU not found in pricebook: " ++ "X")) ∧
    ∀ msg, calculate_estimate [] c2_items 0 0 0 ≠
      Except.error (EstError.valueError msg) := by
  have heval : calculate_estimate [] c2_items 0 0 0 =
      Except.error (EstError.keyError ("SKU not found in pricebook: " ++ "X")) := by
    refine calculate_estimate_lines_error [] c2_items 0 0 0 _ le_rfl le_rfl le_rfl ?_
    exact calc_lines_first_missing [] [] { sku := "X", quantity := 1 }
      [{ sku := "Y", quantity := 0 }] [] 0 (by simp) (by norm_num)
      (by simp) (by simp [get_item_isOk_iff_find?])
  refine ⟨⟨{ sku := "Y", quantity := 0 }, by simp [c2_items], le_rfl⟩, heval, ?_⟩
  intro msg h
  rw [heval] at h
  exact absurd ((Except.error.injEq _ _).mp h) (by simp)

/-- Claim C2 (amended): when every line item's SKU exists in the catalog,
`calculate_estimate` raises a validation error exactly when labor hours,
labor rate or margin percent is negative or some line item has a
non-positive quantity; and the validation error raised for a non-positive
quantity names the SKU of the first offending line item.  (As stated the
claim fails: a missing SKU on an earlier line raises a lookup error before
a later line's non-positive quantity is checked.) -/
theorem validation_error_iff_amended (pricebook : Pricebook)
    (line_items : List LineItemInput) (labor_hours labor_rate margin_pct : ℚ)
    (hsku : ∀ li ∈ line_items, (get_item pricebook li.sku).isOk) :
    ((∃ msg, calculate_estimate pricebook line_items labor_hours labor_rate
        margin_pct = Except.error (EstError.valueError msg)) ↔
      (labor_hours < 0 ∨ labor_rate < 0 ∨ margin_pct < 0 ∨
        ∃ li ∈ line_items, li.quantity ≤ 0)) ∧
    (0 ≤ labor_hours → 0 ≤ labor_rate → 0 ≤ margin_pct →
      ∀ pre li post, line_items = pre ++ li :: post →
        (∀ x ∈ pre, 0 < x.quantity) → li.quantity ≤ 0 →
        calculate_estimate pricebook line_items labor_hours labor_rate margin_pct =
          Except.error (EstError.valueError
            ("Quantity must be positive for SKU " ++ li.sku))) := by
  constructor
  · constructor
    · rintro ⟨msg, hmsg⟩
      by_cases hneg : labor_hours < 0 ∨ labor_rate < 0 ∨ margin_pct < 0
      · rcases hneg with h | h | h
        · exact Or.inl h
        · exact Or.inr (Or.inl h)
        · exact Or.inr (Or.inr (Or.inl h))
      · push_neg at hneg
        obtain ⟨hlh, hlr, hm⟩ := hneg
        have hcl := calculate_estimate_error_inv pricebook line_items labor_hours
          labor_rate margin_pct _ hlh hlr hm hmsg
        exact Or.inr (Or.inr (Or.inr
          (calc_lines_value_error_shape pricebook line_items [] 0 msg hcl)))
    · intro h
      by_cases hneg : labor_hours < 0 ∨ labor_rate < 0 ∨ margin_pct < 0
      · exact ⟨_, calculate_estimate_neg_params pricebook line_items
          labor_hours labor_rate margin_pct hneg⟩
      · push_neg at hneg
        obtain ⟨hlh, hlr, hm⟩ := hneg
        have hnp : ∃ li ∈ line_items, li.quantity ≤ 0 := by
          rcases h with h | h | h | h
          · exact absurd h (not_lt.mpr hlh)
          · exact absurd h (not_lt.mpr hlr)
          · exact absurd h (not_lt.mpr hm)
          · exact h
        obtain ⟨msg, hcl⟩ :=
          calc_lines_error_of_nonpos pricebook line_items [] 0 hsku hnp
        exact ⟨msg, calculate_estimate_lines_error pricebook line_items
          labor_hours labor_rate margin_pct _ hlh hlr hm hcl⟩
  · intro hlh hlr hm pre li post hdecomp hqpre hqli
    subst hdecomp
    refine calculate_estimate_lines_error pricebook _ labor_hours labor_rate
      margin_pct _ hlh hlr hm ?_
    exact calc_lines_first_nonpos pricebook pre li post [] 0 hqpre
      (fun x hx => hsku x (List.mem_append_left _ hx)) hqli

/-- Line items used by the witness for the amended claim C2: the SKU exists
in the demo catalog and the quantity is non-positive. -/
def c2w_items : List LineItemInput := [{ sku := "A", quantity := 0 }]

theorem validation_error_iff_amended_witness :
    ((∃ msg, calculate_estimate demo_pricebook c2w_items 0 0 0 =
        Except.error (EstError.valueError msg)) ↔
      ((0 : ℚ) < 0 ∨ (0 : ℚ) < 0 ∨ (0 : ℚ) < 0 ∨
        ∃ li ∈ c2w_items, li.quantity ≤ 0)) ∧
    calculate_estimate demo_pricebook c2w_items 0 0 0 =
      Except.error (EstError.valueError
        ("Quantity must be positive for SKU " ++ "A")) :=
  ⟨(validation_error_iff_amended demo_pricebook c2w_items 0 0 0
      (by simp [c2w_items, get_item_isOk_iff_find?, demo_pricebook,
        demo_item_a])).1,
   (validation_error_iff_amended demo_pricebook c2w_items 0 0 0
      (by simp [c2w_items, get_item_isOk_iff_find?, demo_pricebook,
        demo_item_a])).2
     le_rfl le_rfl le_rfl [] { sku := "A", quantity := 0 } [] rfl
     (by simp) le_rfl⟩

/-- Line items used in the counterexample to claim C4: an earlier line with
a missing SKU and a positive quantity precedes a line with a negative
quantity. -/
def c4_items : List LineItemInput :=
  [{ sku := "P", quantity := 2 }, { sku := "Q", quantity := -1 }]

/-- Claim C4 is refuted as stated: a line item has a non-positive quantity,
yet the calculation aborts with a lookup error for the earlier line's
missing SKU, not with a validation error, so the quantity precondition is
not checked before the per-line SKU lookups. -/
theorem failfast_quantity_counterexample :
    (∃ li ∈ c4_items, li.quantity ≤ 0) ∧
    calculate_estimate demo_pricebook c4_items 0 0 0 =
      Except.error (EstError.keyError ("SKU not found in pricebook: " ++ "P")) ∧
    ∀ msg, calculate_estimate demo_pricebook c4_items 0 0 0 ≠
      Except.error (EstError.valueError msg) := by
  have heval : calculate_estimate demo_pricebook c4_items 0 0 0 =
      Except.error (EstError.keyError ("SKU not found in pricebook: " ++ "P")) := by
    refine calculate_estimate_lines_error demo_pricebook c4_items 0 0 0 _
      le_rfl le_rfl le_rfl ?_
    exact calc_lines_first_missing demo_pricebook [] { sku := "P", quantity := 2 }
      [{ sku := "Q", quantity := -1 }] [] 0 (by simp) (by norm_num)
      (by simp)
      (by simp [get_item_isOk_iff_find?, demo_pricebook, demo_item_a])
  refine ⟨⟨{ sku := "Q", quantity := -1 }, by simp [c4_items], by norm_num⟩,
    heval, ?_⟩
  intro msg h
  rw [heval] at h
  exact absurd ((Except.error.injEq _ _).mp h) (by simp)

/-- Claim C4 (amended): the global labor-hours/labor-rate/margin checks do
run before any per-line processing, and within one line the quantity check
runs before that same line's SKU lookup — a line with non-positive quantity
raises the named validation error even when its own SKU is absent from the
catalog.  But the per-line checks are interleaved in input order, so the
validation error is guaranteed only when every earlier line has a positive
quantity and a SKU present in the catalog; an earlier line's missing SKU
raises a lookup error first. -/
theorem per_line_check_order (pricebook : Pricebook) :
    (∀ (line_items : List LineItemInput) (labor_hours labor_rate margin_pct : ℚ),
      (labor_hours < 0 ∨ labor_rate < 0 ∨ margin_pct < 0) →
      calculate_estimate pricebook line_items labor_hours labor_rate margin_pct =
        Except.error (EstError.valueError
          "labor_hours, labor_rate, and margin_pct must be non-negative")) ∧
    (∀ (pre : List LineItemInput) (li : LineItemInput) (post : List LineItemInput)
        (labor_hours labor_rate margin_pct : ℚ),
      0 ≤ labor_hours → 0 ≤ labor_rate → 0 ≤ margin_pct →
      (∀ x ∈ pre, 0 < x.quantity ∧ (get_item pricebook x.sku).isOk) →
      li.quantity ≤ 0 →
      calculate_estimate pricebook (pre ++ li :: post)
          labor_hours labor_rate margin_pct =
        Except.error (EstError.valueError
          ("Quantity must be positive for SKU " ++ li.sku))) := by
  constructor
  · exact fun line_items lh lr m h =>
      calculate_estimate_neg_params pricebook line_items lh lr m h
  · intro pre li post lh lr m hlh hlr hm hpre hqli
    refine calculate_estimate_lines_error pricebook _ lh lr m _ hlh hlr hm ?_
    exact calc_lines_first_nonpos pricebook pre li post [] 0
      (fun x hx => (hpre x hx).1) (fun x hx => (hpre x hx).2) hqli

theorem per_line_check_order_witness :
    (calculate_estimate demo_pricebook demo_items (-1) 0 0 =
      Except.error (EstError.valueError
        "labor_hours, labor_rate, and margin_pct must be non-negative")) ∧
    (calculate_estimate demo_pricebook
        ([{ sku := "A", quantity := 1 }] ++ { sku := "MISSING", quantity := 0 } :: [])
        0 0 0 =
      Except.error (EstError.valueError
        ("Quantity must be positive for SKU " ++ "MISSING"))) :=
  ⟨(per_line_check_order demo_pricebook).1 demo_items (-1) 0 0 (by norm_num),
   (per_line_check_order demo_pricebook).2 [{ sku := "A", quantity := 1 }]
     { sku := "MISSING", quantity := 0 } [] 0 0 0 (by norm_num) (by norm_num)
     (by norm_num)
     (by simp [get_item_isOk_iff_find?, demo_pricebook, demo_item_a])
     le_rfl⟩

/-- Concrete catalog with one item per required category, used by the BOM
witnesses. -/
def bom_post_item : PricebookItem :=
  { sku := "POST-4x4", description := "4x4 treated post", unit := "ea",
    unit_price := 12, category := some "post" }

def bom_rail_item : PricebookItem :=
  { sku := "RAIL-2x4", description := "2x4 rail", unit := "ea",
    unit_price := 6, category := some "rail" }

def bom_picket_item : PricebookItem :=
  { sku := "PICKET-1x6", description := "1x6 picket", unit := "ea",
    unit_price := 3, category := some "picket" }

def bom_concrete_item : PricebookItem :=
  { sku := "CONC-50", description := "50lb concrete bag", unit := "bag",
    unit_price := 5, category := some "concrete" }

def bom_fastener_item : PricebookItem :=
  { sku := "SCREW-BOX", description := "Box of screws", unit := "box",
    unit_price := 25, category := some "fastener" }

def bom_gate_item : PricebookItem :=
  { sku := "GATE-STD", description := "Standard gate kit", unit := "ea",
    unit_price := 150, category := some "gate" }

def bom_pricebook : Pricebook :=
  [bom_post_item, bom_rail_item, bom_picket_item, bom_concrete_item,
   bom_fastener_item]

def bom_pricebook_gate : Pricebook := bom_pricebook ++ [bom_gate_item]

theorem bom_pick_post :
    pick_by_category bom_pricebook "post" = Except.ok bom_post_item := by
  simp [pick_by_category, bom_pricebook, bom_post_item]

theorem bom_pick_rail :
    pick_by_category bom_pricebook "rail" = Except.ok bom_rail_item := by
  simp [pick_by_category, bom_pricebook, bom_post_item, bom_rail_item]

theorem bom_pick_picket :
    pick_by_category bom_pricebook "picket" = Except.ok bom_picket_item := by
  simp [pick_by_category, bom_pricebook, bom_post_item, bom_rail_item,
    bom_picket_item]

theorem bom_pick_concrete :
    pick_by_category bom_pricebook "concrete" = Except.ok bom_concrete_item := by
  simp [pick_by_category, bom_pricebook, bom_post_item, bom_rail_item,
    bom_picket_item, bom_concrete_item]

theorem bom_pick_fastener :
    pick_by_category bom_pricebook "fastener" = Except.ok bom_fastener_item := by
  simp [pick_by_category, bom_pricebook, bom_post_item, bom_rail_item,
    bom_picket_item, bom_concrete_item, bom_fastener_item]

theorem bom_pick_gate_missing :
    pick_by_category bom_pricebook "gate" = Except.error (EstError.keyError
      ("No pricebook item with category=\x27" ++ "gate" ++ "\x27")) := by
  simp [pick_by_category, bom_pricebook, bom_post_item, bom_rail_item,
    bom_picket_item, bom_concrete_item, bom_fastener_item]

theorem bom_gate_pick_post :
    pick_by_category bom_pricebook_gate "post" = Except.ok bom_post_item := by
  simp [pick_by_category, bom_pricebook_gate, bom_pricebook, bom_post_item]

theorem bom_gate_pick_rail :
    pick_by_category bom_pricebook_gate "rail" = Except.ok bom_rail_item := by
  simp [pick_by_category, bom_pricebook_gate, bom_pricebook, bom_post_item,
    bom_rail_item]

theorem bom_gate_pick_picket :
    pick_by_category bom_pricebook_gate "picket" = Except.ok bom_picket_item := by
  simp [pick_by_category, bom_pricebook_gate, bom_pricebook, bom_post_item,
    bom_rail_item, bom_picket_item]

theorem bom_gate_pick_concrete :
    pick_by_category bom_pricebook_gate "concrete" = Except.ok bom_concrete_item := by
  simp [pick_by_category, bom_pricebook_gate, bom_pricebook, bom_post_item,
    bom_rail_item, bom_picket_item, bom_concrete_item]

theorem bom_gate_pick_fastener :
    pick_by_category bom_pricebook_gate "fastener" = Except.ok bom_fastener_item := by
  simp [pick_by_category, bom_pricebook_gate, bom_pricebook, bom_post_item,
    bom_rail_item, bom_picket_item, bom_concrete_item, bom_fastener_item]

theorem bom_gate_pick_gate :
    pick_by_category bom_pricebook_gate "gate" = Except.ok bom_gate_item := by
  simp [pick_by_category, bom_pricebook_gate, bom_pricebook, bom_post_item,
    bom_rail_item, bom_picket_item, bom_concrete_item, bom_fastener_item,
    bom_gate_item]

/-- The fence input of spec §8, Example 4. -/
def fence_c5 : FenceEstimateInput := { fence_length_ft := 100 }

theorem fence_c5_posts : posts_qty fence_c5 = 9 := by
  rw [posts_qty,
    show fence_c5.fence_length_ft * fence_c5.posts_per_ft = 833 / 100 from by
      norm_num [fence_c5],
    show ⌈(833 / 100 : ℚ)⌉ = 9 from by norm_num [Int.ceil_eq_iff]]
  decide

theorem fence_c5_rails : rails_qty fence_c5 = 16 := by
  rw [rails_qty, fence_c5_posts]
  decide

theorem fence_c5_pickets : pickets_qty fence_c5 = 200 := by
  rw [pickets_qty,
    show fence_c5.fence_length_ft * pickets_per_ft fence_c5 = 200 from by
      norm_num [fence_c5, pickets_per_ft]]
  norm_num [Int.ceil_eq_iff]

theorem fence_c5_concrete : concrete_qty fence_c5 = 7 := by
  rw [concrete_qty, fence_c5_posts,
    show ((9 : ℤ) : ℚ) * 0.75 = 27 / 4 from by norm_num]
  norm_num [Int.ceil_eq_iff]

theorem fence_c5_fasteners : fasteners_boxes fence_c5 = 1 := by
  rw [fasteners_boxes, fence_c5_pickets,
    show ((200 : ℤ) : ℚ) / 200 = 1 from by norm_num,
    show ⌈(1 : ℚ)⌉ = 1 from by norm_num [Int.ceil_eq_iff]]
  decide

theorem build_fence_bom_ok_shape (pricebook : Pricebook)
    (fence : FenceEstimateInput) (bom : List LineItemInput)
    (h : build_fence_bom pricebook fence = Except.ok bom) :
    ∃ p r k c f,
      pick_by_category pricebook "post" = Except.ok p ∧
      pick_by_category pricebook "rail" = Except.ok r ∧
      pick_by_category pricebook "picket" = Except.ok k ∧
      pick_by_category pricebook "concrete" = Except.ok c ∧
      pick_by_category pricebook "fastener" = Except.ok f ∧
      ((0 < gate_qty fence ∧
          ∃ g, pick_by_category pricebook "gate" = Except.ok g ∧
            bom = required_bom p r k c f fence ++
              [{ sku := g.sku, quantity := (gate_qty fence : ℚ) }]) ∨
        (bom = required_bom p r k c f fence ∧
          (¬ 0 < gate_qty fence ∨
            pick_by_category pricebook "gate" =
              Except.error (EstError.keyError
                ("No pricebook item with category=\x27" ++ "gate" ++ "\x27"))))) := by
  cases hp : pick_by_category pricebook "post" with
  | error e =>
    rw [build_fence_bom_post_error pricebook fence e hp] at h
    cases h
  | ok p =>
  cases hr : pick_by_category pricebook "rail" with
  | error e =>
    rw [build_fence_bom_rail_error pricebook fence p e hp hr] at h
    cases h
  | ok r =>
  cases hk : pick_by_category pricebook "picket" with
  | error e =>
    rw [build_fence_bom_picket_error pricebook fence p r e hp hr hk] at h
    cases h
  | ok k =>
  cases hc : pick_by_category pricebook "concrete" with
  | error e =>
    rw [build_fence_bom_concrete_error pricebook fence p r k e hp hr hk hc] at h
    cases h
  | ok c =>
  cases hf : pick_by_category pricebook "fastener" with
  | error e =>
    rw [build_fence_bom_fastener_error pricebook fence p r k c e hp hr hk hc hf] at h
    cases h
  | ok f =>
  refine ⟨p, r, k, c, f, rfl, rfl, rfl, rfl, rfl, ?_⟩
  by_cases hg : 0 < gate_qty fence
  · cases hgi : pick_by_category pricebook "gate" with
    | error e =>
      rw [build_fence_bom_ok_gate_missing pricebook fence p r k c f e
        hp hr hk hc hf hg hgi] at h
      refine Or.inr ⟨((Except.ok.injEq _ _).mp h).symm, Or.inr ?_⟩
      rw [pick_by_category_error_shape pricebook "gate" e hgi]
    | ok g =>
      exact Or.inl ⟨hg, g, rfl,
        ((Except.ok.injEq _ _).mp
          ((build_fence_bom_ok_gate pricebook fence p r k c f g
            hp hr hk hc hf hg hgi).symm.trans h)).symm⟩
  · rw [build_fence_bom_ok_no_gate pricebook fence p r k c f hp hr hk hc hf hg] at h
    exact Or.inr ⟨((Except.ok.injEq _ _).mp h).symm, Or.inl hg⟩

/-- Claim C5: `build_fence_bom` computes posts = max(2, ceil(L * ppf)),
rails = max(0, (posts - 1) * 2), pickets = ceil(L * 2.0) with the picket
density fixed at 2.0 for every style, concrete = ceil(posts * 0.75) and
fastener boxes = max(1, ceil(pickets / 200)); these are the quantities of
the returned BOM lines, and at L = 100, ppf = 0.0833 they evaluate to
posts = 9, rails = 16, pickets = 200, concrete = 7, fasteners = 1. -/
theorem bom_quantity_formulas :
    (∀ fence : FenceEstimateInput,
      posts_qty fence = max 2 ⌈fence.fence_length_ft * fence.posts_per_ft⌉ ∧
      rails_qty fence = max 0 ((posts_qty fence - 1) * 2) ∧
      pickets_qty fence = ⌈fence.fence_length_ft * 2⌉ ∧
      concrete_qty fence = ⌈(posts_qty fence : ℚ) * 0.75⌉ ∧
      fasteners_boxes fence = max 1 ⌈(pickets_qty fence : ℚ) / 200⌉) ∧
    (∀ (pricebook : Pricebook) (fence : FenceEstimateInput)
        (bom : List LineItemInput),
      build_fence_bom pricebook fence = Except.ok bom →
      bom.map LineItemInput.quantity =
          [(posts_qty fence : ℚ), (rails_qty fence : ℚ), (pickets_qty fence : ℚ),
            (concrete_qty fence : ℚ), (fasteners_boxes fence : ℚ)] ∨
        bom.map LineItemInput.quantity =
          [(posts_qty fence : ℚ), (rails_qty fence : ℚ), (pickets_qty fence : ℚ),
            (concrete_qty fence : ℚ), (fasteners_boxes fence : ℚ),
            (gate_qty fence : ℚ)]) ∧
    (posts_qty fence_c5 = 9 ∧ rails_qty fence_c5 = 16 ∧
      pickets_qty fence_c5 = 200 ∧ concrete_qty fence_c5 = 7 ∧
      fasteners_boxes fence_c5 = 1) := by
  refine ⟨?_, ?_, fence_c5_posts, fence_c5_rails, fence_c5_pickets,
    fence_c5_concrete, fence_c5_fasteners⟩
  · intro fence
    refine ⟨rfl, rfl, ?_, rfl, rfl⟩
    norm_num [pickets_qty, pickets_per_ft]
  · intro pricebook fence bom h
    obtain ⟨p, r, k, c, f, hp, hr, hk, hc, hf, hcase⟩ :=
      build_fence_bom_ok_shape pricebook fence bom h
    rcases hcase with ⟨hg, g, hgi, hbom⟩ | ⟨hbom, hrest⟩
    · right
      subst hbom
      simp [required_bom]
    · left
      subst hbom
      simp [required_bom]

theorem bom_quantity_formulas_witness :
    (required_bom bom_post_item bom_rail_item bom_picket_item bom_concrete_item
        bom_fastener_item fence_c5).map LineItemInput.quantity =
        [(posts_qty fence_c5 : ℚ), (rails_qty fence_c5 : ℚ),
          (pickets_qty fence_c5 : ℚ), (concrete_qty fence_c5 : ℚ),
          (fasteners_boxes fence_c5 : ℚ)] ∨
      (required_bom bom_post_item bom_rail_item bom_picket_item bom_concrete_item
        bom_fastener_item fence_c5).map LineItemInput.quantity =
        [(posts_qty fence_c5 : ℚ), (rails_qty fence_c5 : ℚ),
          (pickets_qty fence_c5 : ℚ), (concrete_qty fence_c5 : ℚ),
          (fasteners_boxes fence_c5 : ℚ), (gate_qty fence_c5 : ℚ)] :=
  bom_quantity_formulas.2.1 bom_pricebook fence_c5 _
    (build_fence_bom_ok_no_gate bom_pricebook fence_c5 bom_post_item bom_rail_item
      bom_picket_item bom_concrete_item bom_fastener_item bom_pick_post
      bom_pick_rail bom_pick_picket bom_pick_concrete bom_pick_fastener
      (by decide))

theorem pick_by_category_no_match (pricebook : Pricebook) (category : String)
    (h : ∀ x ∈ pricebook, x.category ≠ some category) :
    pick_by_category pricebook category =
      Except.error (EstError.keyError
        ("No pricebook item with category=\x27" ++ category ++ "\x27")) := by
  have hnone : pricebook.find? (fun item => item.category == some category) = none := by
    rw [List.find?_eq_none]
    intro x hx
    simp [h x hx]
  unfold pick_by_category
  rw [hnone]

theorem pick_by_category_isOk_iff (pricebook : Pricebook) (category : String) :
    (pick_by_category pricebook category).isOk ↔
      ∃ x ∈ pricebook, x.category = some category := by
  unfold pick_by_category
  cases hf : pricebook.find? (fun item => item.category == some category) with
  | some it =>
    simp only [Except.isOk, Except.toBool]
    constructor
    · intro _
      obtain ⟨x, hx, hpx⟩ := List.find?_isSome.mp (by rw [hf]; rfl)
      exact ⟨x, hx, by simpa using hpx⟩
    · intro _
      trivial
  | none =>
    constructor
    · intro hcontra
      simp [Except.isOk, Except.toBool] at hcontra
    · rintro ⟨x, hx, hpx⟩
      have hsome : (pricebook.find?
          (fun item => item.category == some category)).isSome :=
        List.find?_isSome.mpr ⟨x, hx, by simp [hpx]⟩
      rw [hf] at hsome
      cases hsome

/-- The five required categories of `build_fence_bom`. -/
def required_categories : List String :=
  ["post", "rail", "picket", "concrete", "fastener"]

/-- Claim C6: for each required category, `build_fence_bom` selects the
first catalog item in catalog iteration order whose category tag is an
exact match for that string, and if any required category has no matching
item the whole BOM construction aborts with a category-not-found lookup
error (no partial BOM is returned). -/
theorem pick_by_category_first_match :
    (∀ (pre : Pricebook) (item : PricebookItem) (post : Pricebook)
        (category : String),
      (∀ x ∈ pre, x.category ≠ some category) → item.category = some category →
      pick_by_category (pre ++ item :: post) category = Except.ok item) ∧
    (∀ (pricebook : Pricebook) (category : String),
      (∀ x ∈ pricebook, x.category ≠ some category) →
      pick_by_category pricebook category =
        Except.error (EstError.keyError
          ("No pricebook item with category=\x27" ++ category ++ "\x27"))) ∧
    (∀ (pricebook : Pricebook) (fence : FenceEstimateInput) (c : String),
      c ∈ required_categories →
      (∀ x ∈ pricebook, x.category ≠ some c) →
      ∃ msg, build_fence_bom pricebook fence =
        Except.error (EstError.keyError msg)) := by
  refine ⟨?_, pick_by_category_no_match, ?_⟩
  · intro pre item post category hpre hitem
    have hnone : pre.find? (fun x => x.category == some category) = none := by
      rw [List.find?_eq_none]
      intro x hx
      simp [hpre x hx]
    unfold pick_by_category
    rw [List.find?_append, hnone, Option.none_or,
      List.find?_cons_of_pos _ (by simp [hitem])]
  · intro pricebook fence c hc hnomatch
    have herr := pick_by_category_no_match pricebook c hnomatch
    have hmem : c = "post" ∨ c = "rail" ∨ c = "picket" ∨ c = "concrete" ∨
        c = "fastener" := by
      simpa [required_categories] using hc
    rcases hmem with rfl | rfl | rfl | rfl | rfl
    · exact ⟨_, build_fence_bom_post_error pricebook fence _ herr⟩
    · cases hp : pick_by_category pricebook "post" with
      | error e =>
        rw [pick_by_category_error_shape pricebook "post" e hp] at hp
        exact ⟨_, build_fence_bom_post_error pricebook fence _ hp⟩
      | ok p =>
        exact ⟨_, build_fence_bom_rail_error pricebook fence p _ hp herr⟩
    · cases hp : pick_by_category pricebook "post" with
      | error e =>
        rw [pick_by_category_error_shape pricebook "post" e hp] at hp
        exact ⟨_, build_fence_bom_post_error pricebook fence _ hp⟩
      | ok p =>
        cases hr : pick_by_category pricebook "rail" with
        | error e =>
          rw [pick_by_category_error_shape pricebook "rail" e hr] at hr
          exact ⟨_, build_fence_bom_rail_error pricebook fence p _ hp hr⟩
        | ok r =>
          exact ⟨_, build_fence_bom_picket_error pricebook fence p r _ hp hr herr⟩
    · cases hp : pick_by_category pricebook "post" with
      | error e =>
        rw [pick_by_category_error_shape pricebook "post" e hp] at hp
        exact ⟨_, build_fence_bom_post_error pricebook fence _ hp⟩
      | ok p =>
        cases hr : pick_by_category pricebook "rail" with
        | error e =>
          rw [pick_by_category_error_shape pricebook "rail" e hr] at hr
          exact ⟨_, build_fence_bom_rail_error pricebook fence p _ hp hr⟩
        | ok r =>
          cases hk : pick_by_category pricebook "picket" with
          | error e =>
            rw [pick_by_category_error_shape pricebook "picket" e hk] at hk
            exact ⟨_, build_fence_bom_picket_error pricebook fence p r _ hp hr hk⟩
          | ok k =>
            exact ⟨_, build_fence_bom_concrete_error pricebook fence p r k _
              hp hr hk herr⟩
    · cases hp : pick_by_category pricebook "post" with
      | error e =>
        rw [pick_by_category_error_shape pricebook "post" e hp] at hp
        exact ⟨_, build_fence_bom_post_error pricebook fence _ hp⟩
      | ok p =>
        cases hr : pick_by_category pricebook "rail" with
        | error e =>
          rw [pick_by_category_error_shape pricebook "rail" e hr] at hr
          exact ⟨_, build_fence_bom_rail_error pricebook fence p _ hp hr⟩
        | ok r =>
          cases hk : pick_by_category pricebook "picket" with
          | error e =>
            rw [pick_by_category_error_shape pricebook "picket" e hk] at hk
            exact ⟨_, build_fence_bom_picket_error pricebook fence p r _ hp hr hk⟩
          | ok k =>
            cases hcc : pick_by_category pricebook "concrete" with
            | error e =>
              rw [pick_by_category_error_shape pricebook "concrete" e hcc] at hcc
              exact ⟨_, build_fence_bom_concrete_error pricebook fence p r k _
                hp hr hk hcc⟩
            | ok cc =>
              exact ⟨_, build_fence_bom_fastener_error pricebook fence p r k cc _
                hp hr hk hcc herr⟩

/-- A second rail-category item, placed after the first: the first-match
rule must pick `bom_rail_item`, not this one. -/
def bom_rail_item2 : PricebookItem :=
  { sku := "RAIL-ALT", description := "Alternative rail", unit := "ea",
    unit_price := 7, category := some "rail" }

theorem pick_by_category_first_match_witness :
    pick_by_category ([bom_post_item] ++ bom_rail_item :: [bom_rail_item2])
        "rail" = Except.ok bom_rail_item ∧
    (∃ msg, build_fence_bom [bom_post_item] fence_c5 =
      Except.error (EstError.keyError msg)) :=
  ⟨pick_by_category_first_match.1 [bom_post_item] bom_rail_item [bom_rail_item2]
      "rail" (by simp [bom_post_item]) (by simp [bom_rail_item]),
   pick_by_category_first_match.2.2 [bom_post_item] fence_c5 "rail"
      (by simp [required_categories]) (by simp [bom_post_item])⟩

theorem gate_qty_pos_iff (fence : FenceEstimateInput) :
    0 < gate_qty fence ↔ 0 < fence.gates := by
  simp [gate_qty]

theorem gate_qty_eq_gates (fence : FenceEstimateInput) (h : 0 < fence.gates) :
    gate_qty fence = fence.gates :=
  max_eq_right (le_of_lt h)

theorem pick_isOk_iff_ok (pricebook : Pricebook) (category : String) :
    (pick_by_category pricebook category).isOk ↔
      ∃ item, pick_by_category pricebook category = Except.ok item := by
  cases h : pick_by_category pricebook category <;>
    simp [Except.isOk, Except.toBool]

/-- Claim C7: a successful BOM lists its lines in the fixed order
[post, rail, picket, concrete, fastener, (gate)], the gate line (with
quantity equal to the gate count) being appended exactly when the gate
count is positive and some catalog item has category "gate"; and when the
five required picks succeed the call succeeds even if no gate item exists,
silently omitting the gate line. -/
theorem bom_fixed_order_gate_optional :
    (∀ (pricebook : Pricebook) (fence : FenceEstimateInput)
        (bom : List LineItemInput),
      build_fence_bom pricebook fence = Except.ok bom →
      ∃ p r k c f,
        pick_by_category pricebook "post" = Except.ok p ∧
        pick_by_category pricebook "rail" = Except.ok r ∧
        pick_by_category pricebook "picket" = Except.ok k ∧
        pick_by_category pricebook "concrete" = Except.ok c ∧
        pick_by_category pricebook "fastener" = Except.ok f ∧
        ((0 < fence.gates ∧ (∃ x ∈ pricebook, x.category = some "gate") ∧
            ∃ g, pick_by_category pricebook "gate" = Except.ok g ∧
              bom = required_bom p r k c f fence ++
                [{ sku := g.sku, quantity := (fence.gates : ℚ) }]) ∨
          (¬ (0 < fence.gates ∧ ∃ x ∈ pricebook, x.category = some "gate") ∧
            bom = required_bom p r k c f fence))) ∧
    (∀ (pricebook : Pricebook) (fence : FenceEstimateInput),
      (pick_by_category pricebook "post").isOk →
      (pick_by_category pricebook "rail").isOk →
      (pick_by_category pricebook "picket").isOk →
      (pick_by_category pricebook "concrete").isOk →
      (pick_by_category pricebook "fastener").isOk →
      ∃ bom, build_fence_bom pricebook fence = Except.ok bom) := by
  constructor
  · intro pricebook fence bom h
    obtain ⟨p, r, k, c, f, hp, hr, hk, hc, hf, hcase⟩ :=
      build_fence_bom_ok_shape pricebook fence bom h
    refine ⟨p, r, k, c, f, hp, hr, hk, hc, hf, ?_⟩
    rcases hcase with ⟨hg, g, hgi, hbom⟩ | ⟨hbom, hrest⟩
    · left
      have hgates : 0 < fence.gates := (gate_qty_pos_iff fence).mp hg
      refine ⟨hgates, ?_, g, hgi, ?_⟩
      · exact (pick_by_category_isOk_iff pricebook "gate").mp
          (by rw [hgi]; trivial)
      · rw [hbom, gate_qty_eq_gates fence hgates]
    · right
      refine ⟨?_, hbom⟩
      rintro ⟨hgates, hex⟩
      rcases hrest with hng | hge
      · exact hng ((gate_qty_pos_iff fence).mpr hgates)
      · have : (pick_by_category pricebook "gate").isOk :=
          (pick_by_category_isOk_iff pricebook "gate").mpr hex
        rw [hge] at this
        simp [Except.isOk, Except.toBool] at this
  · intro pricebook fence hp hr hk hc hf
    obtain ⟨p, hp⟩ := (pick_isOk_iff_ok pricebook "post").mp hp
    obtain ⟨r, hr⟩ := (pick_isOk_iff_ok pricebook "rail").mp hr
    obtain ⟨k, hk⟩ := (pick_isOk_iff_ok pricebook "picket").mp hk
    obtain ⟨c, hc⟩ := (pick_isOk_iff_ok pricebook "concrete").mp hc
    obtain ⟨f, hf⟩ := (pick_isOk_iff_ok pricebook "fastener").mp hf
    by_cases hg : 0 < gate_qty fence
    · cases hgi : pick_by_category pricebook "gate" with
      | error e =>
        exact ⟨_, build_fence_bom_ok_gate_missing pricebook fence p r k c f e
          hp hr hk hc hf hg hgi⟩
      | ok g =>
        exact ⟨_, build_fence_bom_ok_gate pricebook fence p r k c f g
          hp hr hk hc hf hg hgi⟩
    · exact ⟨_, build_fence_bom_ok_no_gate pricebook fence p r k c f
        hp hr hk hc hf hg⟩

/-- Fence input with a positive gate count, for the C7 witness. -/
def fence_c7 : FenceEstimateInput := { fence_length_ft := 100, gates := 2 }

theorem bom_fixed_order_gate_optional_witness :
    ∃ p r k c f,
      pick_by_category bom_pricebook_gate "post" = Except.ok p ∧
      pick_by_category bom_pricebook_gate "rail" = Except.ok r ∧
      pick_by_category bom_pricebook_gate "picket" = Except.ok k ∧
      pick_by_category bom_pricebook_gate "concrete" = Except.ok c ∧
      pick_by_category bom_pricebook_gate "fastener" = Except.ok f ∧
      ((0 < fence_c7.gates ∧
          (∃ x ∈ bom_pricebook_gate, x.category = some "gate") ∧
          ∃ g, pick_by_category bom_pricebook_gate "gate" = Except.ok g ∧
            required_bom bom_post_item bom_rail_item bom_picket_item
                bom_concrete_item bom_fastener_item fence_c7 ++
              [{ sku := bom_gate_item.sku, quantity := (gate_qty fence_c7 : ℚ) }] =
              required_bom p r k c f fence_c7 ++
                [{ sku := g.sku, quantity := (fence_c7.gates : ℚ) }]) ∨
        (¬ (0 < fence_c7.gates ∧
            ∃ x ∈ bom_pricebook_gate, x.category = some "gate") ∧
          required_bom bom_post_item bom_rail_item bom_picket_item
              bom_concrete_item bom_fastener_item fence_c7 ++
            [{ sku := bom_gate_item.sku, quantity := (gate_qty fence_c7 : ℚ) }] =
            required_bom p r k c f fence_c7)) :=
  bom_fixed_order_gate_optional.1 bom_pricebook_gate fence_c7 _
    (build_fence_bom_ok_gate bom_pricebook_gate fence_c7 bom_post_item
      bom_rail_item bom_picket_item bom_concrete_item bom_fastener_item
      bom_gate_item bom_gate_pick_post bom_gate_pick_rail bom_gate_pick_picket
      bom_gate_pick_concrete bom_gate_pick_fastener (by decide)
      bom_gate_pick_gate)

theorem posts_qty_pos (fence : FenceEstimateInput) : 0 < posts_qty fence :=
  lt_of_lt_of_le (by norm_num) (le_max_left 2 _)

theorem rails_qty_pos (fence : FenceEstimateInput) : 0 < rails_qty fence := by
  have h2 : (2 : ℤ) ≤ posts_qty fence := le_max_left _ _
  have hm : 0 < (posts_qty fence - 1) * 2 := by nlinarith
  exact lt_max_of_lt_right hm

theorem pickets_per_ft_eq_two (fence : FenceEstimateInput) :
    pickets_per_ft fence = 2 := by
  norm_num [pickets_per_ft]

theorem pickets_qty_pos (fence : FenceEstimateInput)
    (hL : 0 < fence.fence_length_ft) : 0 < pickets_qty fence := by
  unfold pickets_qty
  rw [pickets_per_ft_eq_two]
  exact Int.ceil_pos.mpr (by positivity)

theorem concrete_qty_pos (fence : FenceEstimateInput) : 0 < concrete_qty fence := by
  unfold concrete_qty
  refine Int.ceil_pos.mpr ?_
  have hp : (0 : ℚ) < (posts_qty fence : ℚ) := by
    exact_mod_cast posts_qty_pos fence
  nlinarith

theorem fasteners_boxes_pos (fence : FenceEstimateInput) :
    0 < fasteners_boxes fence :=
  lt_max_of_lt_left (by norm_num)

/-- Degenerate fence input refuting claim C8: zero length passes through
`build_fence_bom` but yields a picket line with quantity 0. -/
def fence_c8 : FenceEstimateInput := { fence_length_ft := 0 }

theorem fence_c8_pickets : pickets_qty fence_c8 = 0 := by
  rw [pickets_qty,
    show fence_c8.fence_length_ft * pickets_per_ft fence_c8 = 0 from by
      norm_num [fence_c8, pickets_per_ft]]
  simp

/-- Claim C8 is refuted as stated: with fence length 0, `build_fence_bom`
succeeds yet the picket line of the returned BOM has quantity 0, which is
not strictly positive. -/
theorem bom_positive_qty_counterexample :
    ∃ bom, build_fence_bom bom_pricebook fence_c8 = Except.ok bom ∧
      ∃ li ∈ bom, ¬ 0 < li.quantity := by
  refine ⟨_, build_fence_bom_ok_no_gate bom_pricebook fence_c8 bom_post_item
    bom_rail_item bom_picket_item bom_concrete_item bom_fastener_item
    bom_pick_post bom_pick_rail bom_pick_picket bom_pick_concrete
    bom_pick_fastener (by decide), ?_⟩
  refine ⟨LineItemInput.mk bom_picket_item.sku (pickets_qty fence_c8 : ℚ),
    ?_, ?_⟩
  · simp [required_bom]
  · rw [fence_c8_pickets]
    norm_num

/-- Claim C8 (amended): for every fence input with strictly positive fence
length on which `build_fence_bom` succeeds, every line of the returned BOM
has a strictly positive quantity, so on such BOMs the non-positive-quantity
validation branch of `calculate_estimate` is unreachable: with non-negative
labor and margin parameters the calculation either succeeds or fails with a
lookup error, never with a validation error.  (As stated the claim fails:
at fence length 0 the picket quantity is 0.) -/
theorem bom_positive_qty_amended (pricebook : Pricebook)
    (fence : FenceEstimateInput) (bom : List LineItemInput)
    (hL : 0 < fence.fence_length_ft)
    (h : build_fence_bom pricebook fence = Except.ok bom) :
    (∀ li ∈ bom, 0 < li.quantity) ∧
    (∀ labor_hours labor_rate margin_pct : ℚ,
      0 ≤ labor_hours → 0 ≤ labor_rate → 0 ≤ margin_pct →
      (calculate_estimate pricebook bom labor_hours labor_rate margin_pct).isOk ∨
        ∃ msg, calculate_estimate pricebook bom labor_hours labor_rate
          margin_pct = Except.error (EstError.keyError msg)) := by
  have hpos : ∀ li ∈ bom, 0 < li.quantity := by
    obtain ⟨p, r, k, c, f, hp, hr, hk, hc, hf, hcase⟩ :=
      build_fence_bom_ok_shape pricebook fence bom h
    have hreq : ∀ li ∈ required_bom p r k c f fence, 0 < li.quantity := by
      intro li hli
      simp only [required_bom, List.mem_cons, List.not_mem_nil, or_false] at hli
      rcases hli with rfl | rfl | rfl | rfl | rfl
      · show (0 : ℚ) < (posts_qty fence : ℚ)
        exact_mod_cast posts_qty_pos fence
      · show (0 : ℚ) < (rails_qty fence : ℚ)
        exact_mod_cast rails_qty_pos fence
      · show (0 : ℚ) < (pickets_qty fence : ℚ)
        exact_mod_cast pickets_qty_pos fence hL
      · show (0 : ℚ) < (concrete_qty fence : ℚ)
        exact_mod_cast concrete_qty_pos fence
      · show (0 : ℚ) < (fasteners_boxes fence : ℚ)
        exact_mod_cast fasteners_boxes_pos fence
    rcases hcase with ⟨hg, g, hgi, hbom⟩ | ⟨hbom, hrest⟩
    · subst hbom
      intro li hli
      rcases List.mem_append.mp hli with hli | hli
      · exact hreq li hli
      · rcases List.mem_singleton.mp hli with rfl
        show (0 : ℚ) < (gate_qty fence : ℚ)
        exact_mod_cast hg
    · subst hbom
      exact hreq
  refine ⟨hpos, ?_⟩
  intro labor_hours labor_rate margin_pct hlh hlr hm
  rcases calc_lines_ok_or_key_error pricebook bom [] 0 hpos with hok | ⟨msg, herr⟩
  · cases hcl : calc_lines pricebook bom [] 0 with
    | error e =>
      rw [hcl] at hok
      simp [Except.isOk, Except.toBool] at hok
    | ok pr =>
      obtain ⟨lines, sub⟩ := pr
      left
      rw [calculate_estimate_lines_ok pricebook bom labor_hours labor_rate
        margin_pct lines sub hlh hlr hm hcl]
      trivial
  · right
    exact ⟨msg, calculate_estimate_lines_error pricebook bom labor_hours
      labor_rate margin_pct _ hlh hlr hm herr⟩

theorem bom_positive_qty_amended_witness :
    (∀ li ∈ required_bom bom_post_item bom_rail_item bom_picket_item
        bom_concrete_item bom_fastener_item fence_c5, 0 < li.quantity) ∧
    ((calculate_estimate bom_pricebook
        (required_bom bom_post_item bom_rail_item bom_picket_item
          bom_concrete_item bom_fastener_item fence_c5) 1 2 3).isOk ∨
      ∃ msg, calculate_estimate bom_pricebook
          (required_bom bom_post_item bom_rail_item bom_picket_item
            bom_concrete_item bom_fastener_item fence_c5) 1 2 3 =
        Except.error (EstError.keyError msg)) :=
  ⟨(bom_positive_qty_amended bom_pricebook fence_c5 _ (by norm_num [fence_c5])
      (build_fence_bom_ok_no_gate bom_pricebook fence_c5 bom_post_item
        bom_rail_item bom_picket_item bom_concrete_item bom_fastener_item
        bom_pick_post bom_pick_rail bom_pick_picket bom_pick_concrete
        bom_pick_fastener (by decide))).1,
   (bom_positive_qty_amended bom_pricebook fence_c5 _ (by norm_num [fence_c5])
      (build_fence_bom_ok_no_gate bom_pricebook fence_c5 bom_post_item
        bom_rail_item bom_picket_item bom_concrete_item bom_fastener_item
        bom_pick_post bom_pick_rail bom_pick_picket bom_pick_concrete
        bom_pick_fastener (by decide))).2 1 2 3
     (by norm_num) (by norm_num) (by norm_num)⟩
